import Mathlib

/-!
Shallow embedding of the Gemini adapter
(`src/backend/open_webui/utils/gemini/errors.py`,
`src/backend/open_webui/utils/gemini/client.py`,
`src/backend/open_webui/routers/gemini.py`) and proofs about it.

Conventions: Python `Optional` fields become `Option`; `dict.get(k, d)`
becomes `Option.getD` on a structure field, or an association-list lookup
where the dict's key set matters; raising an exception becomes returning
`Except.error`; process-global module bindings become explicit state records.
-/

namespace Gemini

/-- Python `pat in s` on strings: `pat` occurs as a contiguous substring of
`s`. -/
def containsSub (s pat : String) : Bool :=
  (List.range (s.data.length + 1)).any (fun i => pat.data.isPrefixOf (s.data.drop i))

/-- Python `str.lower()`, which agrees with per-character ASCII lowering on
the ASCII messages classified here. -/
def pyLower (s : String) : String := ⟨s.data.map Char.toLower⟩

deriving instance DecidableEq for Except

/-! ## Error taxonomy (`errors.py`)

Each Python exception class reduces to a kind tag together with the
`message` and `status_code` its `__init__` stores. -/

/-- One tag per class in `errors.py`: `base` is `GeminiError`, `api` is
`GeminiAPIError`, the rest are the leaf classes. -/
inductive ErrKind where
  | base
  | api
  | authentication
  | rateLimit
  | modelNotFound
  | invalidRequest
  | contextLengthExceeded
  | serverError
  | timeout
deriving DecidableEq, Repr

/-- A raised taxonomy instance: its class tag, `message`, and
`status_code` attribute. -/
structure GemError where
  kind : ErrKind
  message : String
  status_code : Option Nat
deriving DecidableEq, Repr

/-- `GeminiError(message, status_code)` (errors.py line 4). -/
def geminiError (message : String) (status_code : Option Nat) : GemError :=
  ⟨ErrKind.base, message, status_code⟩

/-- `GeminiAPIError(message, status_code)` (errors.py line 12). -/
def geminiAPIError (message : String) (status_code : Option Nat) : GemError :=
  ⟨ErrKind.api, message, status_code⟩

/-- `GeminiAuthenticationError(message)` with status 401; the class default
message is "Invalid API key" (errors.py line 18). -/
def geminiAuthenticationError (message : String) : GemError :=
  ⟨ErrKind.authentication, message, some 401⟩

/-- `GeminiRateLimitError(message)` with status 429 (errors.py line 25). -/
def geminiRateLimitError (message : String) : GemError :=
  ⟨ErrKind.rateLimit, message, some 429⟩

/-- `GeminiModelNotFoundError(model)`: message is
f-string `Model \x7bmodel\x7d not found` with the model quoted, status 404
(errors.py line 32). -/
def geminiModelNotFoundError (model : String) : GemError :=
  ⟨ErrKind.modelNotFound, "Model \x27" ++ model ++ "\x27 not found", some 404⟩

/-- `GeminiInvalidRequestError(message)` with status 400 (errors.py line 39). -/
def geminiInvalidRequestError (message : String) : GemError :=
  ⟨ErrKind.invalidRequest, message, some 400⟩

/-- `GeminiContextLengthExceededError(message)` with status 400
(errors.py line 46). -/
def geminiContextLengthExceededError (message : String) : GemError :=
  ⟨ErrKind.contextLengthExceeded, message, some 400⟩

/-- `GeminiServerError(message)` with status 500 (errors.py line 53). -/
def geminiServerError (message : String) : GemError :=
  ⟨ErrKind.serverError, message, some 500⟩

/-- `GeminiTimeoutError(message)` with status 504; the class default message
is "Request timed out" (errors.py line 60). -/
def geminiTimeoutError (message : String) : GemError :=
  ⟨ErrKind.timeout, message, some 504⟩

/-! ## Request payloads

`generate_content` (client.py lines 115-124) builds the JSON body as a
Python dict. The dict's key set matters for the 404 branch of
`_make_request` (`data.get("model", "unknown")`), so the body is embedded
as an association list of string keys to Python-style values. -/

/-- A Python value as it appears in the request payload dict. -/
inductive PyVal where
  | str : String → PyVal
  | int : Int → PyVal
  | float : Float → PyVal
  | bool : Bool → PyVal
  | pynone : PyVal
  | arr : List PyVal → PyVal
  | dict : List (String × PyVal) → PyVal

/-- A message as the router passes it to `generate_content`. -/
structure ChatMessage where
  role : String
  content : String
deriving DecidableEq, Repr

/-- `Optional[float]` payload value: `None` or the float. -/
def pyOfFloatOpt : Option Float → PyVal
  | some x => PyVal.float x
  | Option.none => PyVal.pynone

/-- `Optional[int]` payload value: `None` or the int. -/
def pyOfIntOpt : Option Int → PyVal
  | some n => PyVal.int n
  | Option.none => PyVal.pynone

/-- The `data` dict built by `generate_content` (client.py lines 115-124):
keys are exactly `contents` and `generationConfig`; there is no `model`
key (the model id goes into the endpoint path, line 126). -/
def buildGenerateContentData (messages : List ChatMessage)
    (temperature : Option Float) (maxTokens : Option Int) :
    List (String × PyVal) :=
  [("contents", PyVal.arr (messages.map (fun m =>
      PyVal.dict [("role", PyVal.str m.role),
                  ("parts", PyVal.arr [PyVal.dict [("text", PyVal.str m.content)]])]))),
   ("generationConfig", PyVal.dict
      [("temperature", pyOfFloatOpt temperature),
       ("maxOutputTokens", pyOfIntOpt maxTokens)])]

/-- Rendering of a payload value into an f-string, as
`GeminiModelNotFoundError` would format it. Classification only ever
reaches this through `data.get("model", "unknown")`, and every payload the
client builds lacks a `model` key, so only the `str` case is ever applied
to a value in the development; the remaining cases are a crude rendering. -/
def pyStrOfVal : PyVal → String
  | PyVal.str s => s
  | PyVal.int n => toString n
  | PyVal.bool b => if b then "True" else "False"
  | PyVal.pynone => "None"
  | PyVal.float _ => ""
  | PyVal.arr _ => ""
  | PyVal.dict _ => ""

/-- `data.get("model", "unknown") if data else "unknown"`
(client.py line 82). -/
def dataGetModel (data : Option (List (String × PyVal))) : String :=
  match data with
  | Option.none => "unknown"
  | some d =>
    match d.lookup "model" with
    | some v => pyStrOfVal v
    | Option.none => "unknown"

/-! ## HTTP error classification (`_make_request`, client.py lines 68-98) -/

/-- The classification chain run on a non-ok response
(client.py lines 74-91): `status` is `response.status` and
`error_message` is `error_data.get("error", \x7b\x7d).get("message", "Unknown error")`. -/
def classifyError (status : Nat) (error_message : String)
    (data : Option (List (String × PyVal))) : GemError :=
  if status = 401 then
    geminiAuthenticationError "Invalid API key"
  else if status = 429 then
    geminiRateLimitError error_message
  else if status = 404 ∧ containsSub (pyLower error_message) "model not found" = true then
    geminiModelNotFoundError (dataGetModel data)
  else if status = 400 then
    if containsSub (pyLower error_message) "context length exceeded" = true then
      geminiContextLengthExceededError error_message
    else
      geminiInvalidRequestError error_message
  else if 500 ≤ status then
    geminiServerError error_message
  else
    geminiAPIError error_message (some status)

/-- aiohttp `ClientResponse.ok`: true exactly when the status is below 400
(redirect and informational statuses count as ok). -/
def responseOk (status : Nat) : Bool := decide (status < 400)

/-- The response gate of `_make_request` (client.py line 68): on a non-ok
response the classification chain raises (`some` error); on an ok response
the response object is returned and no error is raised (`none`). -/
def handleResponse (status : Nat) (error_message : String)
    (data : Option (List (String × PyVal))) : Option GemError :=
  if responseOk status then Option.none
  else some (classifyError status error_message data)

/-- A status outside the 2xx range, as the spec's classification table is
phrased. -/
def isNon2xx (status : Nat) : Bool := decide (status < 200 ∨ 300 ≤ status)

/-! ## Response normalization (`_process_response`, client.py lines 149-178)

The provider response is embedded structurally: each field the code reads
with `dict.get` becomes an `Option` field, and the `.get` default is
applied exactly where the code applies it. Within this shape the
`except (KeyError, IndexError)` wrapper is dead code, since every access
goes through `.get` with a default. -/

/-- One element of a candidate's `parts` list; `text` may be absent. -/
structure Part where
  text : Option String
deriving DecidableEq, Repr

/-- A candidate's `content` object; its `parts` list may be absent. -/
structure CandContent where
  parts : Option (List Part)
deriving DecidableEq, Repr

/-- One element of the provider's `candidates` list. -/
structure Candidate where
  content : Option CandContent
  finishReason : Option String
deriving DecidableEq, Repr

/-- The provider response envelope; the `candidates` key may be absent. -/
structure ProviderResponse where
  candidates : Option (List Candidate)
deriving DecidableEq, Repr

/-- `content = candidates[0].get("content", \x7b\x7d)` followed by
`parts = content.get("parts", [])` (client.py lines 156-157). -/
def candidateParts (c : Candidate) : List Part :=
  ((c.content.getD ⟨Option.none⟩).parts).getD []

/-- The normalized `message` object. -/
structure Message where
  role : String
  content : String
deriving DecidableEq, Repr

/-- One normalized choice. -/
structure Choice where
  message : Message
  finish_reason : String
deriving DecidableEq, Repr

/-- The normalized usage counters. -/
structure Usage where
  prompt_tokens : Nat
  completion_tokens : Nat
  total_tokens : Nat
deriving DecidableEq, Repr

/-- The stable output shape the client returns. -/
structure NormalizedResponse where
  choices : List Choice
  usage : Usage
deriving DecidableEq, Repr

/-- `_process_response` (client.py lines 149-178): empty candidate list
raises `GeminiError("No response from the model")`; empty parts raises
`GeminiError("Empty response from the model")`; otherwise the first part's
text (default empty string) and the first candidate's finish reason
(default "stop") are packed into one choice with zero usage counters. -/
def processResponse (data : ProviderResponse) : Except GemError NormalizedResponse :=
  match data.candidates.getD [] with
  | [] => Except.error (geminiError "No response from the model" Option.none)
  | c :: _ =>
    match candidateParts c with
    | [] => Except.error (geminiError "Empty response from the model" Option.none)
    | p :: _ =>
      Except.ok
        ⟨[⟨⟨"assistant", p.text.getD ""⟩, c.finishReason.getD "stop"⟩],
         ⟨0, 0, 0⟩⟩

/-! ## Client construction and process-wide configuration

`client.py` and `routers/gemini.py` each do
`from open_webui.env import GEMINI_API_KEY, ...`, which copies the value
into a module-local binding at import time. `update_config` rebinds the
router module's copies (`global` at routers/gemini.py line 45); the
client instance's attributes, set in `__init__`, are untouched. -/

/-- The values of `open_webui.env` as seen by the import-time bindings. -/
structure EnvModule where
  GEMINI_API_KEY : String
  GEMINI_API_BASE_URL : String
  ENABLE_GEMINI_API : Bool
  AIOHTTP_CLIENT_TIMEOUT : Option Nat
deriving DecidableEq, Repr

/-- Python `a or b` for `Optional[str] a`: `None` and the empty string are
falsy. -/
def pyOrStr (a : Option String) (b : String) : String :=
  match a with
  | some s => if s = "" then b else s
  | Option.none => b

/-- Python `a or b` for `Optional[int] a`: `None` and `0` are falsy. -/
def pyOrNat (a : Option Nat) (b : Nat) : Nat :=
  match a with
  | some n => if n = 0 then b else n
  | Option.none => b

/-- The attributes a constructed `GeminiClient` instance holds. -/
structure GeminiClient where
  api_key : String
  api_base_url : String
  timeout : Nat
deriving DecidableEq, Repr

/-- `GeminiClient.__init__` (client.py lines 32-43): each attribute is the
explicit argument `or` the module-level binding (`or 300` for the
timeout), and an empty resolved key raises
`GeminiError("Gemini API key is required")` before anything else happens.
The embedding is a pure function: no transport step exists on this path. -/
def GeminiClient.init (env : EnvModule) (api_key api_base_url : Option String)
    (timeout : Option Nat) : Except GemError GeminiClient :=
  let key := pyOrStr api_key env.GEMINI_API_KEY
  let base := pyOrStr api_base_url env.GEMINI_API_BASE_URL
  let tmo := pyOrNat timeout (pyOrNat env.AIOHTTP_CLIENT_TIMEOUT 300)
  if key = "" then Except.error (geminiError "Gemini API key is required" Option.none)
  else Except.ok ⟨key, base, tmo⟩

/-- The body of a `POST /config/update` request (routers/gemini.py
line 24). -/
structure GeminiConfig where
  api_key : String
  api_base_url : String
  enabled : Bool
deriving DecidableEq, Repr

/-- The router module's mutable bindings plus the module-level
`gemini_client` instance constructed once at import
(routers/gemini.py lines 6-17). -/
structure RouterState where
  GEMINI_API_KEY : String
  GEMINI_API_BASE_URL : String
  ENABLE_GEMINI_API : Bool
  gemini_client : GeminiClient
deriving DecidableEq, Repr

/-- Import of `routers/gemini.py`: copy the env values into the module
bindings and run `gemini_client = GeminiClient()` (line 17) with no
explicit arguments. -/
def routerInit (env : EnvModule) : Except GemError RouterState :=
  match GeminiClient.init env Option.none Option.none Option.none with
  | Except.error e => Except.error e
  | Except.ok c =>
    Except.ok ⟨env.GEMINI_API_KEY, env.GEMINI_API_BASE_URL, env.ENABLE_GEMINI_API, c⟩

/-- `update_config` (routers/gemini.py lines 40-51): rebinds the router
module's three globals and echoes the config; `gemini_client` is not
touched. -/
def update_config (st : RouterState) (cfg : GeminiConfig) : RouterState × GeminiConfig :=
  ({ st with
      GEMINI_API_KEY := cfg.api_key,
      GEMINI_API_BASE_URL := cfg.api_base_url,
      ENABLE_GEMINI_API := cfg.enabled },
   cfg)

/-- The api key a subsequent `list_models` or `chat_completions` call
sends: `_make_request` reads `self.api_key` of the module-level client
(client.py line 56, routers/gemini.py lines 69 and 123). -/
def callApiKey (st : RouterState) : String := st.gemini_client.api_key

/-- The base url a subsequent call targets: `_make_request` reads
`self.api_base_url` (client.py line 53). -/
def callBaseUrl (st : RouterState) : String := st.gemini_client.api_base_url

/-- Modelled from the spec: the claim that a call made after
`update_config` uses the updated api key and base url. -/
def claimUsesUpdated (st : RouterState) (cfg : GeminiConfig) : Prop :=
  callApiKey (update_config st cfg).1 = cfg.api_key ∧
  callBaseUrl (update_config st cfg).1 = cfg.api_base_url

/-! ## The except chain of `_make_request` (client.py lines 93-98)

The `try` block spans both the classification `raise`s and the transport
call, so every exception raised inside it is matched against the `except`
clauses in order. The first clause is `except aiohttp.ClientTimeout`:
`aiohttp.ClientTimeout` is aiohttp's timeout-configuration dataclass (the
code itself instantiates it as configuration at client.py line 59), not a
`BaseException` subclass, and CPython raises
`TypeError: catching classes that do not inherit from BaseException is not allowed`
as soon as an except clause tests an in-flight exception against such a
class. The later clauses (`except aiohttp.ClientError`, and
`except asyncio.TimeoutError`, which would itself be a `NameError` because
client.py never imports `asyncio`) are therefore unreachable. -/

/-- An exception in flight inside the `try` of `_make_request`. -/
inductive PyException where
  | taxonomy : GemError → PyException
  | clientError : String → PyException
  | timeoutSignal : PyException
  | typeError : String → PyException
  | nameError : String → PyException
deriving DecidableEq, Repr

/-- What actually propagates to the caller when `raised` is thrown inside
the `try` of `_make_request`: evaluating the first except clause against
the non-exception class `aiohttp.ClientTimeout` raises `TypeError`
unconditionally, replacing the in-flight exception. -/
def makeRequestFailureSurfaced (raised : PyException) : PyException :=
  match raised with
  | _ => PyException.typeError
      "catching classes that do not inherit from BaseException is not allowed"

/-- Whether the propagated exception is a taxonomy instance. -/
def isTaxonomyInstance : PyException → Bool
  | PyException.taxonomy _ => true
  | _ => false

/-- Modelled from the spec: the wrapping the claim describes — a transport
fault becomes the generic taxonomy error carrying the diagnostic text
(client.py line 96's intent), a timeout signal becomes the Timeout kind
with status 504 (line 98's intent, with the class default message), and a
taxonomy instance passes through. -/
def claimWrap : PyException → PyException
  | PyException.clientError s =>
      PyException.taxonomy (geminiError ("Request failed: " ++ s) Option.none)
  | PyException.timeoutSignal =>
      PyException.taxonomy (geminiTimeoutError "Request timed out")
  | e => e

/-! ## Streaming (`generate_content` lines 137-144, `chat_completions` lines 119-141)

The client-side loop reads transport lines: falsy (empty) lines are
skipped, lines that fail `json.loads` are skipped via the
`except json.JSONDecodeError: continue`, and each parsed line is run
through `_process_response` and yielded; a `GeminiError` raised there
aborts the client generator.

The router wraps that generator in `generate()`, which yields an SSE data
event per chunk, an error event for a caught `GeminiError`, and a final
`data: [DONE]` event. However, routers/gemini.py never imports `json`,
so every yield that evaluates `json.dumps(...)` (the chunk event at
line 130 and the error event at line 135) raises
`NameError: name \x27json\x27 is not defined`, which `except GeminiError`
does not catch: the generator aborts and the consumer sees a truncated
stream. Only the degenerate run with no chunks and no error reaches the
`[DONE]` event, whose f-string involves no `json.dumps`. -/

/-- One line of the transport's event stream, as the client loop sees it:
falsy, unparseable as JSON, or parsed into a provider envelope. -/
inductive StreamLine where
  | empty : StreamLine
  | invalid : StreamLine
  | valid : ProviderResponse → StreamLine
deriving DecidableEq, Repr

/-- The client-side streaming loop (client.py lines 138-144): the chunks
yielded in order, and the `GeminiError` that aborted the generator, if
any. -/
def clientStream : List StreamLine → List NormalizedResponse × Option GemError
  | [] => ([], Option.none)
  | StreamLine.empty :: rest => clientStream rest
  | StreamLine.invalid :: rest => clientStream rest
  | StreamLine.valid r :: rest =>
    match processResponse r with
    | Except.error e => ([], some e)
    | Except.ok n =>
      let p := clientStream rest
      (n :: p.1, p.2)

/-- One SSE event of the router's `generate()` wrapper. -/
inductive SSEEvent where
  | dataChunk : NormalizedResponse → SSEEvent
  | errorEvent : GemError → SSEEvent
  | done : SSEEvent
deriving DecidableEq, Repr

/-- What the consumer of the `StreamingResponse` observes: either a
completed event list, or the events delivered before the generator aborted
with the named uncaught exception. -/
inductive StreamDelivery where
  | completed : List SSEEvent → StreamDelivery
  | abortedWith : List SSEEvent → String → StreamDelivery
deriving DecidableEq, Repr

/-- The `generate()` wrapper of `chat_completions` (routers/gemini.py
lines 121-136) as routers/gemini.py actually executes: `initErr` is a
`GeminiError` raised by `_make_request` before any line is read. Every
path that evaluates `json.dumps` aborts with `NameError` before yielding
that event, because the module never imports `json`. -/
def routerStream (initErr : Option GemError) (lines : List StreamLine) :
    StreamDelivery :=
  match initErr with
  | some _ => StreamDelivery.abortedWith [] "NameError: name \x27json\x27 is not defined"
  | Option.none =>
    match clientStream lines with
    | ([], Option.none) => StreamDelivery.completed [SSEEvent.done]
    | ([], some _) => StreamDelivery.abortedWith [] "NameError: name \x27json\x27 is not defined"
    | (_ :: _, _) => StreamDelivery.abortedWith [] "NameError: name \x27json\x27 is not defined"

/-- Modelled from the spec: the delivered sequence ends with a terminal
marker (the `[DONE]` event). -/
def terminalDelivered : StreamDelivery → Bool
  | StreamDelivery.completed evs => evs.getLast? == some SSEEvent.done
  | StreamDelivery.abortedWith _ _ => false

/-- Modelled from the spec: an InvalidRequest-family instance is one whose
kind is InvalidRequest or its context-length refinement (the status-400
family of the taxonomy table). -/
def isInvalidRequestFamily (e : GemError) : Bool :=
  e.kind == ErrKind.invalidRequest || e.kind == ErrKind.contextLengthExceeded

/-! ## Claims -/

/-- C4: for a provider response whose first candidate has at least one
content part carrying a text, normalization returns one choice whose
message has role `assistant` and content equal to that text verbatim,
whose finish_reason is the candidate's `finishReason` (defaulting to
`stop` when absent), and whose usage counters are all zero. -/
theorem c4_normalization_roundtrip (c : Candidate) (cs : List Candidate)
    (ct : CandContent) (p : Part) (ps : List Part) (t : String)
    (h1 : c.content = some ct) (h2 : ct.parts = some (p :: ps))
    (h3 : p.text = some t) :
    processResponse ⟨some (c :: cs)⟩ =
      Except.ok ⟨[⟨⟨"assistant", t⟩, c.finishReason.getD "stop"⟩], ⟨0, 0, 0⟩⟩ := by
  simp [processResponse, candidateParts, h1, h2, h3]

/-- C4 witness: the spec's scenario, a single candidate with one part
`hello` and finish reason `stop`. -/
theorem c4_witness :
    processResponse ⟨some [⟨some ⟨some [⟨some "hello"⟩]⟩, some "stop"⟩]⟩ =
      Except.ok ⟨[⟨⟨"assistant", "hello"⟩, "stop"⟩], ⟨0, 0, 0⟩⟩ :=
  c4_normalization_roundtrip ⟨some ⟨some [⟨some "hello"⟩]⟩, some "stop"⟩ []
    ⟨some [⟨some "hello"⟩]⟩ ⟨some "hello"⟩ [] "hello" rfl rfl rfl

/-- C6 counterexample: on an empty candidate list the raised error is the
base `GeminiError` with no status code — in Python terms not an instance
of `GeminiInvalidRequestError` or any of its family — so the claim's
"InvalidRequest-family" classification fails as stated. -/
theorem c6_counterexample :
    processResponse ⟨some []⟩ =
      Except.error (geminiError "No response from the model" Option.none) ∧
    isInvalidRequestFamily (geminiError "No response from the model" Option.none) = false ∧
    (geminiError "No response from the model" Option.none).status_code = Option.none := by
  decide

/-- C6 (amended): an empty candidate list fails with the base taxonomy
error (`GeminiError`, no status code) whose message contains
`no response from the model` case-insensitively, and a first candidate
with no content parts fails with the base taxonomy error whose message
contains `empty response from the model` case-insensitively. -/
theorem c6_amended (c : Candidate) (cs : List Candidate)
    (h : candidateParts c = []) :
    processResponse ⟨some []⟩ =
      Except.error (geminiError "No response from the model" Option.none) ∧
    processResponse ⟨some (c :: cs)⟩ =
      Except.error (geminiError "Empty response from the model" Option.none) ∧
    (geminiError "No response from the model" Option.none).kind = ErrKind.base ∧
    (geminiError "Empty response from the model" Option.none).kind = ErrKind.base ∧
    containsSub (pyLower "No response from the model") "no response from the model" = true ∧
    containsSub (pyLower "Empty response from the model") "empty response from the model" = true := by
  refine ⟨by decide, ?_, by decide, by decide, by decide, by decide⟩
  simp [processResponse, h]

/-- C6 witness: a candidate whose content is absent has no parts. -/
theorem c6_witness :
    processResponse ⟨some []⟩ =
      Except.error (geminiError "No response from the model" Option.none) ∧
    processResponse ⟨some [⟨Option.none, Option.none⟩]⟩ =
      Except.error (geminiError "Empty response from the model" Option.none) ∧
    (geminiError "No response from the model" Option.none).kind = ErrKind.base ∧
    (geminiError "Empty response from the model" Option.none).kind = ErrKind.base ∧
    containsSub (pyLower "No response from the model") "no response from the model" = true ∧
    containsSub (pyLower "Empty response from the model") "empty response from the model" = true :=
  c6_amended ⟨Option.none, Option.none⟩ [] rfl

/-- C10: a first part that lacks a `text` field normalizes successfully to
the empty string as content, with no error raised. -/
theorem c10_missing_text_empty_content (c : Candidate) (cs : List Candidate)
    (ct : CandContent) (p : Part) (ps : List Part)
    (h1 : c.content = some ct) (h2 : ct.parts = some (p :: ps))
    (h3 : p.text = Option.none) :
    processResponse ⟨some (c :: cs)⟩ =
      Except.ok ⟨[⟨⟨"assistant", ""⟩, c.finishReason.getD "stop"⟩], ⟨0, 0, 0⟩⟩ := by
  simp [processResponse, candidateParts, h1, h2, h3]

/-- C10 witness: one candidate with one text-less part. -/
theorem c10_witness :
    processResponse ⟨some [⟨some ⟨some [⟨Option.none⟩]⟩, some "stop"⟩]⟩ =
      Except.ok ⟨[⟨⟨"assistant", ""⟩, "stop"⟩], ⟨0, 0, 0⟩⟩ :=
  c10_missing_text_empty_content ⟨some ⟨some [⟨Option.none⟩]⟩, some "stop"⟩ []
    ⟨some [⟨Option.none⟩]⟩ ⟨Option.none⟩ [] rfl rfl rfl

/-- C9: a 404 whose provider message does not contain `model not found`
(case-insensitively) classifies as the generic `GeminiAPIError` carrying
status 404, not ModelNotFound and not InvalidRequest. -/
theorem c9_generic_404 (msg : String) (d : Option (List (String × PyVal)))
    (h : containsSub (pyLower msg) "model not found" = false) :
    classifyError 404 msg d = geminiAPIError msg (some 404) ∧
    (classifyError 404 msg d).kind = ErrKind.api ∧
    (classifyError 404 msg d).kind ≠ ErrKind.modelNotFound ∧
    (classifyError 404 msg d).kind ≠ ErrKind.invalidRequest ∧
    (classifyError 404 msg d).status_code = some 404 := by
  have hmain : classifyError 404 msg d = geminiAPIError msg (some 404) := by
    simp [classifyError, h]
  refine ⟨hmain, ?_, ?_, ?_, ?_⟩ <;> simp [hmain, geminiAPIError]

/-- C9 witness: a 404 with message `Resource missing`. -/
theorem c9_witness :
    classifyError 404 "Resource missing" Option.none =
      geminiAPIError "Resource missing" (some 404) ∧
    (classifyError 404 "Resource missing" Option.none).kind = ErrKind.api ∧
    (classifyError 404 "Resource missing" Option.none).kind ≠ ErrKind.modelNotFound ∧
    (classifyError 404 "Resource missing" Option.none).kind ≠ ErrKind.invalidRequest ∧
    (classifyError 404 "Resource missing" Option.none).status_code = some 404 :=
  c9_generic_404 "Resource missing" Option.none (by decide)

/-- C7: when no API key is available — the explicit argument and the
configuration binding both resolve to nothing — construction returns the
taxonomy error `Gemini API key is required` immediately; the construction
path is a pure function with no transport step. -/
theorem c7_missing_key_fails (env : EnvModule)
    (api_key api_base_url : Option String) (timeout : Option Nat)
    (h : pyOrStr api_key env.GEMINI_API_KEY = "") :
    GeminiClient.init env api_key api_base_url timeout =
      Except.error (geminiError "Gemini API key is required" Option.none) := by
  simp [GeminiClient.init, h]

/-- C7 witness: empty configuration key and no explicit key. -/
theorem c7_witness :
    GeminiClient.init ⟨"", "https://upstream.example", true, Option.none⟩
        Option.none Option.none Option.none =
      Except.error (geminiError "Gemini API key is required" Option.none) :=
  c7_missing_key_fails ⟨"", "https://upstream.example", true, Option.none⟩
    Option.none Option.none Option.none rfl

/-- C1 counterexample: 304 is a non-2xx status, but aiohttp's
`response.ok` is true for every status below 400, so the classification
block at client.py line 68 is skipped entirely and no error is raised —
where the claim demands the generic API error carrying status 304. -/
theorem c1_counterexample :
    isNon2xx 304 = true ∧
    handleResponse 304 "Not Modified" Option.none = Option.none ∧
    handleResponse 304 "Not Modified" Option.none ≠
      some (geminiAPIError "Not Modified" (some 304)) := by
  decide

/-- C1 (amended): for every response with status at least 400 (the
statuses for which `response.ok` is false), an error is raised and its
kind follows the classification precedence exactly: 401 Authentication,
429 RateLimit, 404 with `model not found` phrasing ModelNotFound, 400
with `context length exceeded` phrasing ContextLengthExceeded, any other
400 InvalidRequest, any status at least 500 ServerError, and any other
status the generic API error carrying that status code. -/
theorem c1_classification_precedence (status : Nat) (msg : String)
    (d : Option (List (String × PyVal))) (h : 400 ≤ status) :
    handleResponse status msg d = some (classifyError status msg d) ∧
    (status = 401 → (classifyError status msg d).kind = ErrKind.authentication) ∧
    (status = 429 → (classifyError status msg d).kind = ErrKind.rateLimit) ∧
    (status = 404 → containsSub (pyLower msg) "model not found" = true →
      (classifyError status msg d).kind = ErrKind.modelNotFound) ∧
    (status = 400 → containsSub (pyLower msg) "context length exceeded" = true →
      (classifyError status msg d).kind = ErrKind.contextLengthExceeded) ∧
    (status = 400 → containsSub (pyLower msg) "context length exceeded" = false →
      (classifyError status msg d).kind = ErrKind.invalidRequest) ∧
    (500 ≤ status → (classifyError status msg d).kind = ErrKind.serverError) ∧
    (status ≠ 401 → status ≠ 429 →
      (status = 404 → containsSub (pyLower msg) "model not found" = false) →
      status ≠ 400 → status < 500 →
      classifyError status msg d = geminiAPIError msg (some status)) := by
  refine ⟨?_, ?_, ?_, ?_, ?_, ?_, ?_, ?_⟩
  · have hok : responseOk status = false := by
      simp only [responseOk, decide_eq_false_iff_not]
      omega
    simp [handleResponse, hok]
  · intro h401; subst h401
    simp [classifyError, geminiAuthenticationError]
  · intro h429; subst h429
    simp [classifyError, geminiRateLimitError]
  · intro h404 hc; subst h404
    simp [classifyError, hc, geminiModelNotFoundError]
  · intro h400 hc; subst h400
    simp [classifyError, hc, geminiContextLengthExceededError]
  · intro h400 hc; subst h400
    simp [classifyError, hc, geminiInvalidRequestError]
  · intro h500
    have h1 : status ≠ 401 := by omega
    have h2 : status ≠ 429 := by omega
    have h3 : status ≠ 404 := by omega
    have h4 : status ≠ 400 := by omega
    have h5 : ¬(status = 404 ∧ containsSub (pyLower msg) "model not found" = true) :=
      fun hh => h3 hh.1
    simp [classifyError, h1, h2, h4, h5, h500, geminiServerError]
  · intro n1 n2 n3 n4 n5
    have h5 : ¬ 500 ≤ status := by omega
    by_cases h404 : status = 404
    · have hc := n3 h404
      subst h404
      simp [classifyError, hc, geminiAPIError]
    · have hand : ¬(status = 404 ∧ containsSub (pyLower msg) "model not found" = true) :=
        fun hh => h404 hh.1
      simp [classifyError, n1, n2, n4, hand, h5]

/-- C1 witness: a 503 response classifies as ServerError. -/
theorem c1_witness :
    handleResponse 503 "boom" Option.none =
      some (classifyError 503 "boom" Option.none) ∧
    (classifyError 503 "boom" Option.none).kind = ErrKind.serverError :=
  ⟨(c1_classification_precedence 503 "boom" Option.none (by decide)).1,
   (c1_classification_precedence 503 "boom" Option.none (by decide)).2.2.2.2.2.2.1
     (by decide)⟩

/-- C2: the payload `generate_content` builds carries no `model` key, so
the 404 branch's `data.get("model", "unknown")` always yields `unknown`
and the raised ModelNotFound message is `Model (unknown) not found`,
which does not include the requested model id such as `bad-model`. -/
theorem c2_model_name_lost :
    ((buildGenerateContentData [⟨"user", "hi"⟩] Option.none Option.none).lookup
        "model").isNone = true ∧
    classifyError 404 "Requested model not found"
        (some (buildGenerateContentData [⟨"user", "hi"⟩] Option.none Option.none)) =
      geminiModelNotFoundError "unknown" ∧
    (geminiModelNotFoundError "unknown").message = "Model \x27unknown\x27 not found" ∧
    containsSub (geminiModelNotFoundError "unknown").message "bad-model" = false := by
  decide

/-- The env values used by the C3 counterexample. -/
def envK1 : EnvModule := ⟨"k1", "https://upstream.one", true, Option.none⟩

/-- The router module state after importing against `envK1`. -/
def routerStateK1 : RouterState :=
  ⟨"k1", "https://upstream.one", true, ⟨"k1", "https://upstream.one", 300⟩⟩

/-- The configuration update applied in the C3 counterexample. -/
def cfgK2 : GeminiConfig := ⟨"k2", "https://upstream.two", true⟩

/-- C3 counterexample: import with key `k1`, update the configuration to
key `k2`, and the next call still sends `k1` — the update is not seen by
calls, since the client instance cached the key at construction. -/
theorem c3_counterexample :
    routerInit envK1 = Except.ok routerStateK1 ∧
    cfgK2.api_key = "k2" ∧
    callApiKey (update_config routerStateK1 cfgK2).1 = "k1" ∧
    ¬ claimUsesUpdated routerStateK1 cfgK2 := by
  refine ⟨by decide, rfl, rfl, fun hcl => absurd hcl.1 (by decide)⟩

/-- C3 (amended): `update_config` rebinds the router module's globals —
the enabled flag does take effect for subsequent calls — but the api key
and base url a subsequent call uses are the ones the module-level client
captured at construction, unchanged by any update. -/
theorem c3_update_not_seen_by_calls (st : RouterState) (cfg : GeminiConfig) :
    callApiKey (update_config st cfg).1 = callApiKey st ∧
    callBaseUrl (update_config st cfg).1 = callBaseUrl st ∧
    (update_config st cfg).1.ENABLE_GEMINI_API = cfg.enabled :=
  ⟨rfl, rfl, rfl⟩

/-- A well-formed streamed event line carrying one `hello` chunk. -/
def helloLine : StreamLine :=
  StreamLine.valid ⟨some [⟨some ⟨some [⟨some "hello"⟩]⟩, some "stop"⟩]⟩

/-- C5: a streaming call that produces even one chunk aborts with
`NameError` at the first `json.dumps` (routers/gemini.py never imports
`json`), delivering no terminal marker; only the degenerate run with no
chunks and no error reaches `data: [DONE]`. -/
theorem c5_stream_truncated :
    routerStream Option.none [helloLine] =
      StreamDelivery.abortedWith [] "NameError: name \x27json\x27 is not defined" ∧
    terminalDelivered (routerStream Option.none [helloLine]) = false ∧
    routerStream (some (geminiServerError "boom")) [] =
      StreamDelivery.abortedWith [] "NameError: name \x27json\x27 is not defined" ∧
    terminalDelivered (routerStream Option.none []) = true := by
  decide

/-- C8: every exception raised inside `_make_request`'s try block —
transport faults and timeout signals included — surfaces as `TypeError`
from the broken first except clause, not as a taxonomy instance, and in
particular a timeout signal is not mapped to the Timeout/504 wrapping the
claim describes. -/
theorem c8_typeerror_surfaces :
    makeRequestFailureSurfaced (PyException.clientError "Cannot connect to host") =
      PyException.typeError
        "catching classes that do not inherit from BaseException is not allowed" ∧
    isTaxonomyInstance
      (makeRequestFailureSurfaced (PyException.clientError "Cannot connect to host")) = false ∧
    isTaxonomyInstance (makeRequestFailureSurfaced PyException.timeoutSignal) = false ∧
    makeRequestFailureSurfaced PyException.timeoutSignal ≠
      claimWrap PyException.timeoutSignal ∧
    claimWrap PyException.timeoutSignal =
      PyException.taxonomy (geminiTimeoutError "Request timed out") := by
  decide

end Gemini
